import Mathlib

/-!
# Table clock (ESP32): refresh coordinator

A shallow embedding of `src/main.cpp`.  The global variables of the sketch become the
fields of `State`; every function that mutates them becomes a pure function on `State`.
Everything the sketch reads from the outside world (the millisecond counter, the WiFi
link status, the touch controller, the HTTP transport and the JSON parser) is an
explicit input of the function that reads it, one field per read, so that two reads of
`millis()` in one function are two independent values.  Calls into collaborators that
only produce effects (`drawUI`, `delay`, `WiFi.begin`, ...) are recorded in a trace;
`Call.hwInit` stands for the display, SPI and touch initialisation of main.cpp:246-254.
Serial logging is not recorded.
-/

namespace TableClock

/-! ## Data model -/

/-- A C `float`, kept as its IEEE-754 binary32 bit pattern.  The sketch only stores,
copies and compares-for-NaN these values; no arithmetic is performed on them. -/
structure float where
  bits : Nat
deriving DecidableEq, Repr

/-- The `NAN` constant of `<math.h>` (quiet NaN). -/
def NAN : float := ⟨0x7FC00000⟩

/-- The literal `12.9716f` (main.cpp:39), binary32 encoding. -/
def DEFAULT_LATITUDE : float := ⟨0x414F8BAC⟩

/-- The literal `77.5946f` (main.cpp:40), binary32 encoding. -/
def DEFAULT_LONGITUDE : float := ⟨0x429B306F⟩

/-- Modulus of `uint32_t` arithmetic. -/
def U32 : Nat := 4294967296

/-- The `uint32_t` subtraction `a - b`, as the sketch writes `millis() - lastX`. -/
def sub32 (a b : Nat) : Nat := (a % U32 + (U32 - b % U32)) % U32

/-- main.cpp:22 -/
def WEATHER_REFRESH_MS : Nat := 15 * 60 * 1000 % U32
/-- main.cpp:23 -/
def WIFI_RETRY_MS : Nat := 5 * 60 * 1000 % U32
/-- main.cpp:24 -/
def UI_REFRESH_MS : Nat := 30 * 1000 % U32

/-- `HTTP_CODE_OK` of the HTTPClient library. -/
def HTTP_CODE_OK : Int := 200

/-- The global variables of the sketch (main.cpp:39-48). -/
structure State where
  latitude : float
  longitude : float
  weatherTemp : float
  weatherCode : Int
  weatherText : String
  lastWeatherMs : Nat
  lastWifiAttempt : Nat
  lastUiDraw : Nat
deriving DecidableEq, Repr

/-- The static initialisers of main.cpp:39-48. -/
def initState : State :=
  { latitude := DEFAULT_LATITUDE
    longitude := DEFAULT_LONGITUDE
    weatherTemp := NAN
    weatherCode := -1
    weatherText := "---"
    lastWeatherMs := 0
    lastWifiAttempt := 0
    lastUiDraw := 0 }

/-- The weather snapshot held by the sketch. -/
def snapshot (s : State) : float × Int × String :=
  (s.weatherTemp, s.weatherCode, s.weatherText)

/-- The coordinate held by the sketch. -/
def coordinate (s : State) : float × float :=
  (s.latitude, s.longitude)

/-- Calls into effect-only collaborators, recorded in program order. -/
inductive Call where
  | hwInit
  | wifiMode
  | wifiBegin
  | wifiDisconnect
  | configTime
  | drawUI
  | fetchWeather (ok : Bool)
  | fetchLocationFromIP (ok : Bool)
  | delay (ms : Nat)
deriving DecidableEq, Repr

/-! ## Weather code map (main.cpp:51-93) -/

/-- The `switch` of `mapWeatherCode`; the value assigned to `out`. -/
def mapWeatherCode (code : Int) : String :=
  if code = 0 then "Clear"
  else if code = 1 then "Mostly Clear"
  else if code = 2 then "Partly Cloudy"
  else if code = 3 then "Overcast"
  else if code = 45 ∨ code = 48 then "Fog"
  else if code = 61 ∨ code = 63 ∨ code = 65 then "Rain"
  else if code = 71 ∨ code = 73 ∨ code = 75 then "Snow"
  else if code = 80 ∨ code = 81 ∨ code = 82 then "Showers"
  else if code = 95 then "Thunder"
  else "Unknown"

/-- The table of the specification (section 6), written as data: the listed codes with
their texts. -/
def specWeatherTable : List (Int × String) :=
  [ (0, "Clear"), (1, "Mostly Clear"), (2, "Partly Cloudy"), (3, "Overcast"),
    (45, "Fog"), (48, "Fog"),
    (61, "Rain"), (63, "Rain"), (65, "Rain"),
    (71, "Snow"), (73, "Snow"), (75, "Snow"),
    (80, "Showers"), (81, "Showers"), (82, "Showers"),
    (95, "Thunder") ]

/-- The mapping the specification describes: table lookup, default "Unknown". -/
def specWeatherText (code : Int) : String :=
  (specWeatherTable.lookup code).getD "Unknown"

/-! ## Weather fetch (main.cpp:160-195) -/

/-- What one call of `fetchWeather` observes from the transport and the JSON parser. -/
structure WeatherReply where
  /-- Result of `https.begin(client, url)`. -/
  beginOk : Bool
  /-- Result of `https.GET()`. -/
  httpCode : Int
  /-- Whether `deserializeJson` reported an error. -/
  jsonErr : Bool
  /-- Result of `doc["current_weather"].isNull()`. -/
  cwIsNull : Bool
  /-- Result of `cw["temperature"].as<float>()`. -/
  temperature : float
  /-- Result of `cw["weathercode"].as<int>()`. -/
  weathercode : Int
deriving DecidableEq, Repr

/-- `fetchWeather()`: the returned flag and the globals afterwards. -/
def fetchWeather (s : State) (r : WeatherReply) : Bool × State :=
  if !r.beginOk then (false, s)
  else if r.httpCode ≠ HTTP_CODE_OK then (false, s)
  else if r.jsonErr then (false, s)
  else if r.cwIsNull then (false, s)
  else
    (true, { s with weatherTemp := r.temperature
                    weatherCode := r.weathercode
                    weatherText := mapWeatherCode r.weathercode })

/-- A sequence of `fetchWeather` calls, one reply per call. -/
def fetchWeatherRun (s : State) : List WeatherReply → State
  | [] => s
  | r :: rs => fetchWeatherRun (fetchWeather s r).2 rs

/-- The conditions under which the specification says a refresh fails. -/
def weatherFails (r : WeatherReply) : Prop :=
  r.beginOk = false ∨ r.httpCode ≠ 200 ∨ r.jsonErr = true ∨ r.cwIsNull = true

/-- The snapshot a successful refresh with reply `r` produces. -/
def replySnapshot (r : WeatherReply) : float × Int × String :=
  (r.temperature, r.weathercode, mapWeatherCode r.weathercode)

/-! ## Location lookup (main.cpp:133-157) -/

/-- What one call of `fetchLocationFromIP` observes from the transport and the parser. -/
structure LocationReply where
  /-- Result of `http.begin(client, url)`. -/
  beginOk : Bool
  /-- Result of `http.GET()`. -/
  httpCode : Int
  /-- Whether `deserializeJson` reported an error. -/
  jsonErr : Bool
  /-- The string held by `doc["status"]`, `none` when it holds no string. -/
  status : Option String
  /-- Result of `doc["lat"].as<float>()`. -/
  lat : float
  /-- Result of `doc["lon"].as<float>()`. -/
  lon : float
deriving DecidableEq, Repr

/-- `fetchLocationFromIP()`: the returned flag and the globals afterwards. -/
def fetchLocationFromIP (s : State) (r : LocationReply) : Bool × State :=
  if !r.beginOk then (false, s)
  else if r.httpCode ≠ HTTP_CODE_OK then (false, s)
  else if r.jsonErr || r.status != some "success" then (false, s)
  else (true, { s with latitude := r.lat, longitude := r.lon })

/-- The conditions under which the specification says a lookup fails. -/
def locationFails (r : LocationReply) : Prop :=
  r.beginOk = false ∨ r.httpCode ≠ 200 ∨ r.jsonErr = true ∨ r.status ≠ some "success"

/-! ## WiFi (main.cpp:96-114) -/

/-- `connectWiFi()`. -/
def connectWiFi : List Call := [Call.wifiMode, Call.wifiBegin]

/-- What one call of `wifiMaintain` reads. -/
structure MaintainInput where
  /-- `WiFi.status() == WL_CONNECTED` at main.cpp:105. -/
  connected : Bool
  /-- `millis()` at main.cpp:107. -/
  msCheck : Nat
  /-- `millis()` at main.cpp:110. -/
  msStamp : Nat
deriving DecidableEq, Repr

/-- `wifiMaintain()`. -/
def wifiMaintain (s : State) (i : MaintainInput) : State × List Call :=
  if i.connected then (s, [])
  else if sub32 i.msCheck s.lastWifiAttempt < WIFI_RETRY_MS then (s, [])
  else ({ s with lastWifiAttempt := i.msStamp }, [Call.wifiDisconnect, Call.wifiBegin])

/-- Whether a trace of `wifiMaintain` re-initiated the association. -/
def retried (t : List Call) : Bool := t.contains Call.wifiBegin

/-- The calls of a sequence of `wifiMaintain` calls that performed a retry. -/
def wifiRetries : State → List MaintainInput → List MaintainInput
  | _, [] => []
  | s, c :: cs =>
    (if retried (wifiMaintain s c).2 then [c] else []) ++ wifiRetries (wifiMaintain s c).1 cs

/-- The clock readings of a sequence of `wifiMaintain` calls, in program order. -/
def wifiClock : List MaintainInput → List Nat
  | [] => []
  | c :: cs => c.msCheck :: c.msStamp :: wifiClock cs

/-! ## Time synchronisation (main.cpp:117-130) -/

/-- The `for` loop of `syncTime`: `n` iterations left, `i` the loop counter; `time i` is
the value `time(nullptr)` returns in iteration `i`. -/
def syncTimeLoop (time : Nat → Int) : Nat → Nat → List Call
  | 0, _ => []
  | n + 1, i => if time i > 100000 then [] else Call.delay 500 :: syncTimeLoop time n (i + 1)

/-- `syncTime()`. -/
def syncTime (time : Nat → Int) : List Call := Call.configTime :: syncTimeLoop time 10 0

/-! ## Setup (main.cpp:244-267) -/

/-- What `setup` reads. -/
structure SetupInput where
  /-- The readings of `time(nullptr)` inside `syncTime`. -/
  time : Nat → Int
  /-- `WiFi.status() == WL_CONNECTED` at main.cpp:259. -/
  link : Bool
  /-- The reply seen by `fetchLocationFromIP` at main.cpp:261. -/
  locationReply : LocationReply
  /-- The reply seen by `fetchWeather` at main.cpp:262. -/
  weatherReply : WeatherReply
  /-- `millis()` at main.cpp:265. -/
  msStamp : Nat

/-- The `if` block of main.cpp:259-263. -/
def setupFetch (s : State) (i : SetupInput) : State × List Call :=
  if i.link then
    ((fetchWeather (fetchLocationFromIP s i.locationReply).2 i.weatherReply).2,
      [Call.fetchLocationFromIP (fetchLocationFromIP s i.locationReply).1,
       Call.fetchWeather (fetchWeather (fetchLocationFromIP s i.locationReply).2 i.weatherReply).1])
  else (s, [])

/-- `setup()`, run on the statically initialised globals. -/
def setup (i : SetupInput) : State × List Call :=
  ({ (setupFetch initState i).1 with lastWeatherMs := i.msStamp },
    [Call.hwInit] ++ connectWiFi ++ syncTime i.time ++ (setupFetch initState i).2 ++ [Call.drawUI])

/-! ## Loop (main.cpp:270-294) -/

/-- What one iteration of `loop` reads. -/
structure LoopInput where
  /-- The reads of `wifiMaintain()` at main.cpp:272. -/
  maintain : MaintainInput
  /-- `millis()` at main.cpp:274. -/
  msUiCheck : Nat
  /-- `millis()` at main.cpp:276. -/
  msUiStamp : Nat
  /-- `WiFi.status() == WL_CONNECTED` at main.cpp:280. -/
  weatherLink : Bool
  /-- `millis()` at main.cpp:281. -/
  msWeatherCheck : Nat
  /-- The reply seen by `fetchWeather` at main.cpp:283. -/
  weatherReply : WeatherReply
  /-- `millis()` at main.cpp:284. -/
  msWeatherStamp : Nat
  /-- `ts.touched()` at main.cpp:287. -/
  touched : Bool
  /-- `WiFi.status() == WL_CONNECTED` at main.cpp:290. -/
  touchLink : Bool
  /-- The reply seen by `fetchWeather` at main.cpp:291. -/
  touchReply : WeatherReply
deriving DecidableEq, Repr

/-- The periodic UI block, main.cpp:274-278. -/
def uiStep (s : State) (i : LoopInput) : State × List Call :=
  if sub32 i.msUiCheck s.lastUiDraw > UI_REFRESH_MS then
    ({ s with lastUiDraw := i.msUiStamp }, [Call.drawUI])
  else (s, [])

/-- The periodic weather block, main.cpp:280-285. -/
def weatherStep (s : State) (i : LoopInput) : State × List Call :=
  if i.weatherLink && decide (sub32 i.msWeatherCheck s.lastWeatherMs > WEATHER_REFRESH_MS) then
    ({ (fetchWeather s i.weatherReply).2 with lastWeatherMs := i.msWeatherStamp },
      [Call.fetchWeather (fetchWeather s i.weatherReply).1])
  else (s, [])

/-- The touch block, main.cpp:287-293. -/
def touchStep (s : State) (i : LoopInput) : State × List Call :=
  if i.touched then
    if i.touchLink then
      ((fetchWeather s i.touchReply).2,
        [Call.delay 200, Call.fetchWeather (fetchWeather s i.touchReply).1, Call.drawUI])
    else (s, [Call.delay 200, Call.drawUI])
  else (s, [])

/-- The calls one iteration of `loop` makes, by block. -/
structure TickTrace where
  maintain : List Call
  ui : List Call
  weather : List Call
  touch : List Call
deriving DecidableEq, Repr

/-- `loop()`: one iteration. -/
def loop (s : State) (i : LoopInput) : State × TickTrace :=
  let a := wifiMaintain s i.maintain
  let b := uiStep a.1 i
  let c := weatherStep b.1 i
  let d := touchStep c.1 i
  (d.1, { maintain := a.2, ui := b.2, weather := c.2, touch := d.2 })

/-- Successive iterations of `loop`, one input per iteration. -/
def loopRun : State → List LoopInput → State × List TickTrace
  | s, [] => (s, [])
  | s, i :: is => ((loopRun (loop s i).1 is).1, (loop s i).2 :: (loopRun (loop s i).1 is).2)

/-- Number of `fetchWeather` calls in a trace. -/
def countFetch : List Call → Nat
  | [] => 0
  | Call.fetchWeather _ :: t => countFetch t + 1
  | _ :: t => countFetch t

/-- Number of `drawUI` calls in a trace. -/
def countDraw (t : List Call) : Nat := t.count Call.drawUI

/-- The iterations of a run whose periodic UI block rendered. -/
def periodicRenders : State → List LoopInput → List LoopInput
  | _, [] => []
  | s, i :: is =>
    (if (loop s i).2.ui.contains Call.drawUI then [i] else []) ++ periodicRenders (loop s i).1 is

/-- The clock readings of the periodic UI block over a run, in program order. -/
def uiClock : List LoopInput → List Nat
  | [] => []
  | i :: is => i.msUiCheck :: i.msUiStamp :: uiClock is

/-- Number of iterations of a run whose touch block dispatched (rendered). -/
def touchDispatches (ts : List TickTrace) : Nat :=
  (ts.filter (fun t => t.touch.contains Call.drawUI)).length

/-- Number of touch events in a sequence of touch readings: the maximal runs of
consecutive asserted readings, `prev` being the reading before the sequence. -/
def touchEvents (prev : Bool) : List Bool → Nat
  | [] => 0
  | b :: bs => (if b && !prev then 1 else 0) + touchEvents b bs

/-! ## Concrete inputs used in the examples -/

/-- A reply of the weather service with HTTP status `code` and no usable body. -/
def httpStatusReply (code : Int) : WeatherReply := ⟨true, code, true, true, ⟨0⟩, 0⟩

/-- A well-formed reply of the weather service: 27.5 degrees (binary32 `0x41DC0000`),
weather code 63. -/
def rainReply : WeatherReply := ⟨true, 200, false, false, ⟨0x41DC0000⟩, 63⟩

/-- An iteration in which every `millis()` read returns `ms`, every link-status read
returns `link`, the touch read returns `touched`, and both weather requests would be
answered by `reply`. -/
def tick (ms : Nat) (link touched : Bool) (reply : WeatherReply) : LoopInput :=
  { maintain := ⟨link, ms, ms⟩
    msUiCheck := ms
    msUiStamp := ms
    weatherLink := link
    msWeatherCheck := ms
    weatherReply := reply
    msWeatherStamp := ms
    touched := touched
    touchLink := link
    touchReply := reply }

/-- An iteration with the link down and no touch, every `millis()` read returning `ms`. -/
def quietTick (ms : Nat) : LoopInput := tick ms false false (httpStatusReply 0)

/-- A `setup` run with the link up, NTP never answering and both HTTP requests ending
in a read timeout (HTTPClient error -11), completing at tick `ms`. -/
def slowSetup (ms : Nat) : SetupInput :=
  { time := fun _ => 0
    link := true
    locationReply := ⟨true, -11, true, none, ⟨0⟩, ⟨0⟩⟩
    weatherReply := httpStatusReply (-11)
    msStamp := ms }

/-! ## Lemmas -/

theorem fetchWeather_fails_iff (s : State) (r : WeatherReply) :
    (fetchWeather s r).1 = false ↔ weatherFails r := by
  unfold fetchWeather weatherFails HTTP_CODE_OK
  cases h1 : r.beginOk <;> cases h3 : r.jsonErr <;> cases h4 : r.cwIsNull <;>
    by_cases h2 : r.httpCode = 200 <;> simp [h2]

theorem fetchWeather_fail_state (s : State) (r : WeatherReply)
    (h : (fetchWeather s r).1 = false) : (fetchWeather s r).2 = s := by
  unfold fetchWeather at h ⊢
  split_ifs at h ⊢
  all_goals simp_all

theorem fetchWeather_ok_snapshot (s : State) (r : WeatherReply)
    (h : (fetchWeather s r).1 = true) : snapshot (fetchWeather s r).2 = replySnapshot r := by
  unfold fetchWeather at h ⊢
  split_ifs at h ⊢
  all_goals simp_all [snapshot, replySnapshot]

theorem fetchWeather_timers (s : State) (r : WeatherReply) :
    (fetchWeather s r).2.lastWeatherMs = s.lastWeatherMs ∧
    (fetchWeather s r).2.lastWifiAttempt = s.lastWifiAttempt ∧
    (fetchWeather s r).2.lastUiDraw = s.lastUiDraw ∧
    coordinate (fetchWeather s r).2 = coordinate s := by
  unfold fetchWeather
  split_ifs <;> simp [coordinate]

theorem fetchWeatherRun_all_fail (s : State) (rs : List WeatherReply)
    (h : ∀ x ∈ rs, weatherFails x) : fetchWeatherRun s rs = s := by
  induction rs generalizing s with
  | nil => rfl
  | cons r rs ih =>
    have hr : (fetchWeather s r).2 = s :=
      fetchWeather_fail_state s r ((fetchWeather_fails_iff s r).2 (h r (List.mem_cons_self r rs)))
    simp only [fetchWeatherRun, hr]
    exact ih s (fun x hx => h x (List.mem_cons_of_mem r hx))

theorem fetchWeatherRun_append (s : State) (xs ys : List WeatherReply) :
    fetchWeatherRun s (xs ++ ys) = fetchWeatherRun (fetchWeatherRun s xs) ys := by
  induction xs generalizing s with
  | nil => rfl
  | cons r rs ih =>
    show fetchWeatherRun (fetchWeather s r).2 (rs ++ ys) = _
    exact ih _

theorem lookup_skip (k a : Int) (b : String) (l : List (Int × String)) (h : ¬ k = a) :
    List.lookup k ((a, b) :: l) = List.lookup k l := by
  have e : (k == a) = false := beq_eq_false_iff_ne.mpr h
  simp only [List.lookup, e]

theorem specCodes_eq :
    specWeatherTable.map Prod.fst =
      [0, 1, 2, 3, 45, 48, 61, 63, 65, 71, 73, 75, 80, 81, 82, 95] := rfl

theorem mapWeatherCode_unknown (code : Int) (h : code ∉ specWeatherTable.map Prod.fst) :
    mapWeatherCode code = "Unknown" := by
  rw [specCodes_eq] at h
  simp only [List.mem_cons, List.mem_singleton, List.not_mem_nil, or_false, not_or] at h
  unfold mapWeatherCode
  split_ifs <;> first | rfl | omega

theorem fetchWeather_flag (s t : State) (r : WeatherReply) :
    (fetchWeather s r).1 = (fetchWeather t r).1 := by
  unfold fetchWeather
  split_ifs <;> rfl

theorem fetchLocation_fails_iff (s : State) (r : LocationReply) :
    (fetchLocationFromIP s r).1 = false ↔ locationFails r := by
  unfold fetchLocationFromIP locationFails HTTP_CODE_OK
  cases h1 : r.beginOk <;> cases h3 : r.jsonErr <;>
    by_cases h2 : r.httpCode = 200 <;> by_cases h4 : r.status = some "success" <;>
    simp [h2, h4]

theorem fetchLocation_fail_state (s : State) (r : LocationReply)
    (h : (fetchLocationFromIP s r).1 = false) : (fetchLocationFromIP s r).2 = s := by
  unfold fetchLocationFromIP at h ⊢
  split_ifs at h ⊢
  all_goals simp_all

theorem fetchLocation_frame (s : State) (r : LocationReply) :
    snapshot (fetchLocationFromIP s r).2 = snapshot s ∧
    (fetchLocationFromIP s r).2.lastWeatherMs = s.lastWeatherMs ∧
    (fetchLocationFromIP s r).2.lastWifiAttempt = s.lastWifiAttempt ∧
    (fetchLocationFromIP s r).2.lastUiDraw = s.lastUiDraw := by
  unfold fetchLocationFromIP
  split_ifs <;> simp [snapshot]

theorem WIFI_RETRY_MS_eq : WIFI_RETRY_MS = 300000 := by decide

theorem UI_REFRESH_MS_eq : UI_REFRESH_MS = 30000 := by decide

theorem WEATHER_REFRESH_MS_eq : WEATHER_REFRESH_MS = 900000 := by decide

theorem sub32_of_le (a b : Nat) (ha : a < U32) (hb : b ≤ a) : sub32 a b = a - b := by
  unfold sub32 U32 at *
  omega

theorem sub32_wrap (last d : Nat) (hd : d < U32) :
    sub32 ((last + d) % U32) last = d := by
  unfold sub32 U32 at *
  omega

/-- The two outcomes of `wifiMaintain`. -/
theorem wifiMaintain_cases (s : State) (c : MaintainInput) :
    (retried (wifiMaintain s c).2 = true ∧ c.connected = false ∧
      WIFI_RETRY_MS ≤ sub32 c.msCheck s.lastWifiAttempt ∧
      (wifiMaintain s c).1 = { s with lastWifiAttempt := c.msStamp }) ∨
    (retried (wifiMaintain s c).2 = false ∧
      (c.connected = true ∨ sub32 c.msCheck s.lastWifiAttempt < WIFI_RETRY_MS) ∧
      wifiMaintain s c = (s, [])) := by
  unfold wifiMaintain
  cases hc : c.connected
  · by_cases hlt : sub32 c.msCheck s.lastWifiAttempt < WIFI_RETRY_MS
    · right
      simp [hlt, retried]
    · left
      rw [if_neg (by decide), if_neg hlt]
      exact ⟨rfl, rfl, Nat.le_of_not_lt hlt, rfl⟩
  · right
    simp [retried]

/-- A retry after a stamp that no later reading precedes is a full period later. -/
theorem wifiRetries_lower (cs : List MaintainInput) :
    ∀ s : State, (wifiClock cs).Pairwise (· ≤ ·) → (∀ t ∈ wifiClock cs, t < U32) →
      (∀ t ∈ wifiClock cs, s.lastWifiAttempt ≤ t) →
      ∀ a ∈ wifiRetries s cs, s.lastWifiAttempt + WIFI_RETRY_MS ≤ a.msCheck := by
  induction cs with
  | nil => intro s _ _ _ a ha; simp [wifiRetries] at ha
  | cons c cs ih =>
    intro s hs hb hl a ha
    simp only [wifiClock, List.pairwise_cons, List.mem_cons, forall_eq_or_imp] at hs hb hl
    obtain ⟨⟨h12, h1r⟩, h2r, hrest⟩ := hs
    obtain ⟨hb1, hb2, hbr⟩ := hb
    obtain ⟨hl1, hl2, hlr⟩ := hl
    have hfirst : ∀ t ∈ wifiClock cs, c.msStamp ≤ t := h2r
    simp only [wifiRetries] at ha
    rcases wifiMaintain_cases s c with ⟨hr, _, hge, hst⟩ | ⟨hr, _, hst⟩
    · have hsub : sub32 c.msCheck s.lastWifiAttempt = c.msCheck - s.lastWifiAttempt :=
        sub32_of_le _ _ hb1 hl1
      rw [hsub] at hge
      rw [hr, hst] at ha
      simp only [if_true, List.singleton_append, List.mem_cons] at ha
      rcases ha with ha | ha
      · subst ha; omega
      · have := ih { s with lastWifiAttempt := c.msStamp } hrest hbr hfirst a ha
        simp only at this
        omega
    · rw [hr, hst] at ha
      simp only [Bool.false_eq_true, if_false, List.nil_append] at ha
      exact ih s hrest hbr hlr a ha

theorem wifiRetries_pairwise (cs : List MaintainInput) :
    ∀ s : State, (wifiClock cs).Pairwise (· ≤ ·) → (∀ t ∈ wifiClock cs, t < U32) →
      (wifiRetries s cs).Pairwise (fun a b => a.msStamp + WIFI_RETRY_MS ≤ b.msCheck) := by
  induction cs with
  | nil => intro s _ _; simp [wifiRetries]
  | cons c cs ih =>
    intro s hs hb
    simp only [wifiClock, List.pairwise_cons, List.mem_cons, forall_eq_or_imp] at hs hb
    obtain ⟨⟨h12, h1r⟩, h2r, hrest⟩ := hs
    obtain ⟨hb1, hb2, hbr⟩ := hb
    simp only [wifiRetries]
    rcases wifiMaintain_cases s c with ⟨hr, _, hge, hst⟩ | ⟨hr, _, hst⟩
    · rw [hr, hst]
      simp only [if_true, List.singleton_append, List.pairwise_cons]
      refine ⟨?_, ih _ hrest hbr⟩
      intro b hb
      exact wifiRetries_lower cs { s with lastWifiAttempt := c.msStamp } hrest hbr h2r b hb
    · rw [hr, hst]
      simp only [Bool.false_eq_true, if_false, List.nil_append]
      exact ih s hrest hbr

/-! ### Frame lemmas: which globals each block of `loop` can change -/

theorem wifiMaintain_frame (s : State) (c : MaintainInput) :
    (wifiMaintain s c).1.lastUiDraw = s.lastUiDraw ∧
    (wifiMaintain s c).1.lastWeatherMs = s.lastWeatherMs ∧
    snapshot (wifiMaintain s c).1 = snapshot s ∧
    coordinate (wifiMaintain s c).1 = coordinate s := by
  rcases wifiMaintain_cases s c with ⟨_, _, _, hst⟩ | ⟨_, _, hst⟩ <;> rw [hst] <;>
    exact ⟨rfl, rfl, rfl, rfl⟩

/-- The two outcomes of the periodic UI block. -/
theorem uiStep_cases (s : State) (i : LoopInput) :
    (UI_REFRESH_MS < sub32 i.msUiCheck s.lastUiDraw ∧
      uiStep s i = ({ s with lastUiDraw := i.msUiStamp }, [Call.drawUI])) ∨
    (¬ UI_REFRESH_MS < sub32 i.msUiCheck s.lastUiDraw ∧ uiStep s i = (s, [])) := by
  unfold uiStep
  by_cases h : UI_REFRESH_MS < sub32 i.msUiCheck s.lastUiDraw
  · left; exact ⟨h, if_pos h⟩
  · right; exact ⟨h, if_neg h⟩

theorem uiStep_frame (s : State) (i : LoopInput) :
    (uiStep s i).1.lastWifiAttempt = s.lastWifiAttempt ∧
    (uiStep s i).1.lastWeatherMs = s.lastWeatherMs ∧
    snapshot (uiStep s i).1 = snapshot s ∧
    coordinate (uiStep s i).1 = coordinate s := by
  rcases uiStep_cases s i with ⟨_, hst⟩ | ⟨_, hst⟩ <;> rw [hst] <;> exact ⟨rfl, rfl, rfl, rfl⟩

/-- The two outcomes of the periodic weather block. -/
theorem weatherStep_cases (s : State) (i : LoopInput) :
    (i.weatherLink = true ∧ WEATHER_REFRESH_MS < sub32 i.msWeatherCheck s.lastWeatherMs ∧
      weatherStep s i =
        ({ (fetchWeather s i.weatherReply).2 with lastWeatherMs := i.msWeatherStamp },
          [Call.fetchWeather (fetchWeather s i.weatherReply).1])) ∨
    (¬ (i.weatherLink = true ∧ WEATHER_REFRESH_MS < sub32 i.msWeatherCheck s.lastWeatherMs) ∧
      weatherStep s i = (s, [])) := by
  unfold weatherStep
  by_cases h : i.weatherLink = true ∧ WEATHER_REFRESH_MS < sub32 i.msWeatherCheck s.lastWeatherMs
  · left
    refine ⟨h.1, h.2, if_pos ?_⟩
    simp [h.1, h.2]
  · right
    refine ⟨h, if_neg ?_⟩
    simpa using h

theorem weatherStep_frame (s : State) (i : LoopInput) :
    (weatherStep s i).1.lastWifiAttempt = s.lastWifiAttempt ∧
    (weatherStep s i).1.lastUiDraw = s.lastUiDraw ∧
    coordinate (weatherStep s i).1 = coordinate s := by
  have hf := fetchWeather_timers s i.weatherReply
  rcases weatherStep_cases s i with ⟨_, _, hst⟩ | ⟨_, hst⟩ <;> rw [hst]
  · exact ⟨hf.2.1, hf.2.2.1, hf.2.2.2⟩
  · exact ⟨rfl, rfl, rfl⟩

/-- The three outcomes of the touch block. -/
theorem touchStep_cases (s : State) (i : LoopInput) :
    (i.touched = true ∧ i.touchLink = true ∧
      touchStep s i = ((fetchWeather s i.touchReply).2,
        [Call.delay 200, Call.fetchWeather (fetchWeather s i.touchReply).1, Call.drawUI])) ∨
    (i.touched = true ∧ i.touchLink = false ∧
      touchStep s i = (s, [Call.delay 200, Call.drawUI])) ∨
    (i.touched = false ∧ touchStep s i = (s, [])) := by
  unfold touchStep
  cases ht : i.touched <;> cases hl : i.touchLink <;> simp

theorem touchStep_frame (s : State) (i : LoopInput) :
    (touchStep s i).1.lastWifiAttempt = s.lastWifiAttempt ∧
    (touchStep s i).1.lastUiDraw = s.lastUiDraw ∧
    (touchStep s i).1.lastWeatherMs = s.lastWeatherMs ∧
    coordinate (touchStep s i).1 = coordinate s := by
  have hf := fetchWeather_timers s i.touchReply
  rcases touchStep_cases s i with ⟨_, _, hst⟩ | ⟨_, _, hst⟩ | ⟨_, hst⟩ <;> rw [hst]
  · exact ⟨hf.2.1, hf.2.2.1, hf.1, hf.2.2.2⟩
  · exact ⟨rfl, rfl, rfl, rfl⟩
  · exact ⟨rfl, rfl, rfl, rfl⟩

/-- The WiFi block of `loop` is `wifiMaintain` on the entry state, and nothing later in
the iteration changes `lastWifiAttempt`. -/
theorem loop_maintain (s : State) (i : LoopInput) :
    (loop s i).2.maintain = (wifiMaintain s i.maintain).2 ∧
    (loop s i).1.lastWifiAttempt = (wifiMaintain s i.maintain).1.lastWifiAttempt := by
  refine ⟨rfl, ?_⟩
  show (touchStep (weatherStep (uiStep (wifiMaintain s i.maintain).1 i).1 i).1 i).1.lastWifiAttempt
    = _
  rw [(touchStep_frame _ i).1, (weatherStep_frame _ i).1, (uiStep_frame _ i).1]

/-- The two outcomes of the periodic UI block inside `loop`, in terms of the entry
state. -/
theorem loop_ui_cases (s : State) (i : LoopInput) :
    (UI_REFRESH_MS < sub32 i.msUiCheck s.lastUiDraw ∧ (loop s i).2.ui = [Call.drawUI] ∧
      (loop s i).1.lastUiDraw = i.msUiStamp) ∨
    (¬ UI_REFRESH_MS < sub32 i.msUiCheck s.lastUiDraw ∧ (loop s i).2.ui = [] ∧
      (loop s i).1.lastUiDraw = s.lastUiDraw) := by
  have hw := (wifiMaintain_frame s i.maintain).1
  have hl : (loop s i).1.lastUiDraw = (uiStep (wifiMaintain s i.maintain).1 i).1.lastUiDraw := by
    show (touchStep (weatherStep (uiStep (wifiMaintain s i.maintain).1 i).1 i).1 i).1.lastUiDraw
      = _
    rw [(touchStep_frame _ i).2.1, (weatherStep_frame _ i).2.1]
  have hu : (loop s i).2.ui = (uiStep (wifiMaintain s i.maintain).1 i).2 := rfl
  rcases uiStep_cases (wifiMaintain s i.maintain).1 i with ⟨hd, hst⟩ | ⟨hd, hst⟩
  · left
    rw [hw] at hd
    rw [hl, hu, hst]
    exact ⟨hd, rfl, rfl⟩
  · right
    rw [hw] at hd
    rw [hl, hu, hst]
    exact ⟨hd, rfl, hw⟩

/-- The two outcomes of the periodic weather block inside `loop`, in terms of the entry
state. -/
theorem loop_weather_cases (s : State) (i : LoopInput) :
    (i.weatherLink = true ∧ WEATHER_REFRESH_MS < sub32 i.msWeatherCheck s.lastWeatherMs ∧
      (loop s i).2.weather = [Call.fetchWeather (fetchWeather s i.weatherReply).1] ∧
      (loop s i).1.lastWeatherMs = i.msWeatherStamp) ∨
    (¬ (i.weatherLink = true ∧ WEATHER_REFRESH_MS < sub32 i.msWeatherCheck s.lastWeatherMs) ∧
      (loop s i).2.weather = [] ∧ (loop s i).1.lastWeatherMs = s.lastWeatherMs) := by
  have hw := (wifiMaintain_frame s i.maintain).2.1
  have hu := (uiStep_frame (wifiMaintain s i.maintain).1 i).2.1
  have hb : (uiStep (wifiMaintain s i.maintain).1 i).1.lastWeatherMs = s.lastWeatherMs := by
    rw [hu, hw]
  have hl : (loop s i).1.lastWeatherMs
      = (weatherStep (uiStep (wifiMaintain s i.maintain).1 i).1 i).1.lastWeatherMs := by
    show (touchStep (weatherStep (uiStep (wifiMaintain s i.maintain).1 i).1 i).1 i).1.lastWeatherMs
      = _
    rw [(touchStep_frame _ i).2.2.1]
  have ht : (loop s i).2.weather = (weatherStep (uiStep (wifiMaintain s i.maintain).1 i).1 i).2 :=
    rfl
  rcases weatherStep_cases (uiStep (wifiMaintain s i.maintain).1 i).1 i with
    ⟨hk, hd, hst⟩ | ⟨hd, hst⟩
  · left
    rw [hb] at hd
    rw [hl, ht, hst]
    refine ⟨hk, hd, ?_, rfl⟩
    show [Call.fetchWeather (fetchWeather _ i.weatherReply).1] = _
    rw [fetchWeather_flag _ s]
  · right
    rw [hb] at hd
    rw [hl, ht, hst]
    exact ⟨hd, rfl, hb⟩

/-- The touch block inside `loop` makes the calls it would make on the entry state. -/
theorem loop_touch (s : State) (i : LoopInput) :
    (loop s i).2.touch = (touchStep s i).2 := by
  show (touchStep (weatherStep (uiStep (wifiMaintain s i.maintain).1 i).1 i).1 i).2 = _
  generalize (weatherStep (uiStep (wifiMaintain s i.maintain).1 i).1 i).1 = t
  rcases touchStep_cases t i with ⟨h1, h2, hst⟩ | ⟨h1, h2, hst⟩ | ⟨h1, hst⟩ <;>
    rcases touchStep_cases s i with ⟨k1, k2, kst⟩ | ⟨k1, k2, kst⟩ | ⟨k1, kst⟩ <;>
    rw [hst, kst] <;> simp_all
  exact fetchWeather_flag t s i.touchReply

/-- A periodic render after a stamp that no later reading precedes is more than a full
period later. -/
theorem periodicRenders_lower (js : List LoopInput) :
    ∀ s : State, (uiClock js).Pairwise (· ≤ ·) → (∀ t ∈ uiClock js, t < U32) →
      (∀ t ∈ uiClock js, s.lastUiDraw ≤ t) →
      ∀ a ∈ periodicRenders s js, s.lastUiDraw + UI_REFRESH_MS < a.msUiCheck := by
  induction js with
  | nil => intro s _ _ _ a ha; simp [periodicRenders] at ha
  | cons i js ih =>
    intro s hs hb hl a ha
    simp only [uiClock, List.pairwise_cons, List.mem_cons, forall_eq_or_imp] at hs hb hl
    obtain ⟨⟨h12, h1r⟩, h2r, hrest⟩ := hs
    obtain ⟨hb1, hb2, hbr⟩ := hb
    obtain ⟨hl1, hl2, hlr⟩ := hl
    simp only [periodicRenders] at ha
    rcases loop_ui_cases s i with ⟨hd, hu, hst⟩ | ⟨hd, hu, hst⟩
    · rw [sub32_of_le _ _ hb1 hl1] at hd
      rw [hu] at ha
      have hc : [Call.drawUI].contains Call.drawUI = true := rfl
      simp only [hc, if_true, List.singleton_append, List.mem_cons] at ha
      rcases ha with ha | ha
      · subst ha; omega
      · have := ih (loop s i).1 hrest hbr (by rw [hst]; exact h2r) a ha
        rw [hst] at this
        omega
    · rw [hu] at ha
      have hc : ([] : List Call).contains Call.drawUI = false := rfl
      simp only [hc, Bool.false_eq_true, if_false, List.nil_append] at ha
      have := ih (loop s i).1 hrest hbr (by rw [hst]; exact hlr) a ha
      rwa [hst] at this

theorem periodicRenders_pairwise (js : List LoopInput) :
    ∀ s : State, (uiClock js).Pairwise (· ≤ ·) → (∀ t ∈ uiClock js, t < U32) →
      (periodicRenders s js).Pairwise (fun a b => a.msUiStamp + UI_REFRESH_MS < b.msUiCheck) := by
  induction js with
  | nil => intro s _ _; simp [periodicRenders]
  | cons i js ih =>
    intro s hs hb
    simp only [uiClock, List.pairwise_cons, List.mem_cons, forall_eq_or_imp] at hs hb
    obtain ⟨⟨h12, h1r⟩, h2r, hrest⟩ := hs
    obtain ⟨hb1, hb2, hbr⟩ := hb
    simp only [periodicRenders]
    rcases loop_ui_cases s i with ⟨hd, hu, hst⟩ | ⟨hd, hu, hst⟩
    · rw [hu]
      have hc : [Call.drawUI].contains Call.drawUI = true := rfl
      simp only [hc, if_true, List.singleton_append, List.pairwise_cons]
      refine ⟨?_, ih _ hrest hbr⟩
      intro b hb
      have := periodicRenders_lower js (loop s i).1 hrest hbr (by rw [hst]; exact h2r) b hb
      rwa [hst] at this
    · rw [hu]
      have hc : ([] : List Call).contains Call.drawUI = false := rfl
      simp only [hc, Bool.false_eq_true, if_false, List.nil_append]
      exact ih _ hrest hbr

theorem sub32_zero (a : Nat) : sub32 a 0 = a % U32 := by
  unfold sub32 U32
  omega

theorem syncTimeLoop_countDraw (time : Nat → Int) (n : Nat) :
    ∀ i, countDraw (syncTimeLoop time n i) = 0 := by
  induction n with
  | zero => intro i; rfl
  | succ n ih =>
    intro i
    unfold syncTimeLoop
    split_ifs
    · rfl
    · have := ih (i + 1)
      unfold countDraw at this ⊢
      rw [List.count_cons, this]
      rfl

theorem setupFetch_frame (s : State) (i : SetupInput) :
    (setupFetch s i).1.lastWifiAttempt = s.lastWifiAttempt ∧
    (setupFetch s i).1.lastUiDraw = s.lastUiDraw ∧
    countDraw (setupFetch s i).2 = 0 := by
  unfold setupFetch
  cases i.link
  · exact ⟨rfl, rfl, rfl⟩
  · simp only [if_true]
    have hw := fetchWeather_timers (fetchLocationFromIP s i.locationReply).2 i.weatherReply
    have hl := fetchLocation_frame s i.locationReply
    exact ⟨by rw [hw.2.1, hl.2.2.1], by rw [hw.2.2.1, hl.2.2.2], rfl⟩

theorem touchEvents_le_count (bs : List Bool) :
    ∀ prev, touchEvents prev bs ≤ bs.count true := by
  induction bs with
  | nil => intro prev; simp [touchEvents]
  | cons b bs ih =>
    intro prev
    have := ih b
    cases b <;> cases prev <;> simp [touchEvents, List.count_cons] <;> omega

theorem loop_touch_contains (s : State) (i : LoopInput) :
    (loop s i).2.touch.contains Call.drawUI = i.touched := by
  rw [loop_touch]
  rcases touchStep_cases s i with ⟨h1, _, hst⟩ | ⟨h1, _, hst⟩ | ⟨h1, hst⟩ <;> rw [hst, h1] <;> rfl

/-! ## C1: stale preservation of the weather snapshot -/

/-- C1. `fetchWeather` reports failure exactly when `begin` fails, the status is not
200, the body does not parse or `current_weather` is absent; a failing call leaves every
global (in particular `weatherTemp`, `weatherCode`, `weatherText`) as it was; a
successful call stores the reply's temperature, code and mapped text.  Hence after any
sequence of calls the held snapshot is that of the last successful call, and it is the
snapshot held before the sequence (the sentinel `(NaN, -1, "---")` from the initial
state) when no call succeeded. -/
theorem fetchWeather_stale_preservation :
    (∀ s r, (fetchWeather s r).1 = false ↔ weatherFails r) ∧
    (∀ s r, (fetchWeather s r).1 = false →
      (fetchWeather s r).2.weatherTemp = s.weatherTemp ∧
      (fetchWeather s r).2.weatherCode = s.weatherCode ∧
      (fetchWeather s r).2.weatherText = s.weatherText) ∧
    (∀ s pre r post, ¬ weatherFails r → (∀ x ∈ post, weatherFails x) →
      snapshot (fetchWeatherRun s (pre ++ r :: post)) = replySnapshot r) ∧
    (∀ s rs, (∀ x ∈ rs, weatherFails x) →
      snapshot (fetchWeatherRun s rs) = snapshot s) ∧
    (∀ rs, (∀ x ∈ rs, weatherFails x) →
      snapshot (fetchWeatherRun initState rs) = (NAN, -1, "---")) := by
  refine ⟨fetchWeather_fails_iff, ?_, ?_, ?_, ?_⟩
  · intro s r h
    rw [fetchWeather_fail_state s r h]
    exact ⟨rfl, rfl, rfl⟩
  · intro s pre r post hr hpost
    rw [fetchWeatherRun_append]
    simp only [fetchWeatherRun]
    rw [fetchWeatherRun_all_fail _ post hpost]
    apply fetchWeather_ok_snapshot
    cases h : (fetchWeather (fetchWeatherRun s pre) r).1
    · exact absurd ((fetchWeather_fails_iff _ r).1 h) hr
    · rfl
  · intro s rs h
    rw [fetchWeatherRun_all_fail s rs h]
  · intro rs h
    rw [fetchWeatherRun_all_fail initState rs h]
    rfl

/-- Four calls answered HTTP 500, a good reply (27.5 degrees, code 63), HTTP 500 and
HTTP 404: the snapshot held afterwards is that of the one good reply. -/
theorem fetchWeather_stale_preservation_witness :
    snapshot (fetchWeatherRun initState
      ([httpStatusReply 500] ++ rainReply :: [httpStatusReply 500, httpStatusReply 404]))
      = (⟨0x41DC0000⟩, 63, "Rain") :=
  fetchWeather_stale_preservation.2.2.1 initState [httpStatusReply 500] rainReply
    [httpStatusReply 500, httpStatusReply 404]
    (by unfold weatherFails; decide)
    (by
      intro x hx
      simp only [List.mem_cons, List.mem_singleton, List.not_mem_nil, or_false] at hx
      rcases hx with rfl | rfl <;> (unfold weatherFails; decide))

/-! ## C2: the weather code table -/

/-- C2. `mapWeatherCode` agrees with the specified table on every integer: the sixteen
listed codes give their texts, every other integer (negative ones included) gives
"Unknown", the result is never the empty string, and code 63 gives "Rain". -/
theorem mapWeatherCode_table (code : Int) :
    mapWeatherCode code = specWeatherText code ∧
    mapWeatherCode code ≠ "" ∧
    (code ∉ specWeatherTable.map Prod.fst → mapWeatherCode code = "Unknown") ∧
    (code < 0 → mapWeatherCode code = "Unknown") ∧
    mapWeatherCode 0 = "Clear" ∧ mapWeatherCode 1 = "Mostly Clear" ∧
    mapWeatherCode 2 = "Partly Cloudy" ∧ mapWeatherCode 3 = "Overcast" ∧
    mapWeatherCode 45 = "Fog" ∧ mapWeatherCode 48 = "Fog" ∧
    mapWeatherCode 61 = "Rain" ∧ mapWeatherCode 63 = "Rain" ∧ mapWeatherCode 65 = "Rain" ∧
    mapWeatherCode 71 = "Snow" ∧ mapWeatherCode 73 = "Snow" ∧ mapWeatherCode 75 = "Snow" ∧
    mapWeatherCode 80 = "Showers" ∧ mapWeatherCode 81 = "Showers" ∧
    mapWeatherCode 82 = "Showers" ∧ mapWeatherCode 95 = "Thunder" := by
  have listed : ∀ c ∈ specWeatherTable.map Prod.fst, mapWeatherCode c = specWeatherText c := by
    decide
  have values : mapWeatherCode 0 = "Clear" ∧ mapWeatherCode 1 = "Mostly Clear" ∧
      mapWeatherCode 2 = "Partly Cloudy" ∧ mapWeatherCode 3 = "Overcast" ∧
      mapWeatherCode 45 = "Fog" ∧ mapWeatherCode 48 = "Fog" ∧
      mapWeatherCode 61 = "Rain" ∧ mapWeatherCode 63 = "Rain" ∧ mapWeatherCode 65 = "Rain" ∧
      mapWeatherCode 71 = "Snow" ∧ mapWeatherCode 73 = "Snow" ∧ mapWeatherCode 75 = "Snow" ∧
      mapWeatherCode 80 = "Showers" ∧ mapWeatherCode 81 = "Showers" ∧
      mapWeatherCode 82 = "Showers" ∧ mapWeatherCode 95 = "Thunder" := by
    decide
  refine ⟨?_, ?_, ?_, ?_, values⟩
  · by_cases h : code ∈ specWeatherTable.map Prod.fst
    · exact listed code h
    · rw [mapWeatherCode_unknown code h]
      rw [specCodes_eq] at h
      simp only [List.mem_cons, List.mem_singleton, List.not_mem_nil, or_false, not_or] at h
      obtain ⟨h0, h1, h2, h3, h45, h48, h61, h63, h65, h71, h73, h75, h80, h81, h82, h95⟩ := h
      unfold specWeatherText specWeatherTable
      rw [lookup_skip _ _ _ _ h0, lookup_skip _ _ _ _ h1,
        lookup_skip _ _ _ _ h2, lookup_skip _ _ _ _ h3, lookup_skip _ _ _ _ h45,
        lookup_skip _ _ _ _ h48, lookup_skip _ _ _ _ h61, lookup_skip _ _ _ _ h63,
        lookup_skip _ _ _ _ h65, lookup_skip _ _ _ _ h71, lookup_skip _ _ _ _ h73,
        lookup_skip _ _ _ _ h75, lookup_skip _ _ _ _ h80, lookup_skip _ _ _ _ h81,
        lookup_skip _ _ _ _ h82, lookup_skip _ _ _ _ h95]
      rfl
  · unfold mapWeatherCode
    split_ifs <;> decide
  · exact mapWeatherCode_unknown code
  · intro h
    unfold mapWeatherCode
    split_ifs <;> first | rfl | omega

/-- The negative code -7 is outside the table and maps to "Unknown". -/
theorem mapWeatherCode_table_witness : mapWeatherCode (-7) = "Unknown" :=
  (mapWeatherCode_table (-7)).2.2.2.1 (by decide)

/-! ## C9: location fallback -/

/-- C9. `fetchLocationFromIP` reports failure exactly when `begin` fails, the status is
not 200, the body does not parse or the payload's status field is not "success"; a
failing lookup leaves `latitude` and `longitude` unchanged.  In particular, from the
initial state a well-transported payload whose status is "fail" returns false and leaves
the coordinate at the compiled-in fallback (12.9716, 77.5946). -/
theorem fetchLocationFromIP_fallback :
    (∀ s r, (fetchLocationFromIP s r).1 = false ↔ locationFails r) ∧
    (∀ s r, (fetchLocationFromIP s r).1 = false →
      (fetchLocationFromIP s r).2.latitude = s.latitude ∧
      (fetchLocationFromIP s r).2.longitude = s.longitude) ∧
    (∀ r, r.status = some "fail" →
      (fetchLocationFromIP initState r).1 = false ∧
      coordinate (fetchLocationFromIP initState r).2 = (DEFAULT_LATITUDE, DEFAULT_LONGITUDE)) := by
  refine ⟨fetchLocation_fails_iff, ?_, ?_⟩
  · intro s r h
    rw [fetchLocation_fail_state s r h]
    exact ⟨rfl, rfl⟩
  · intro r hr
    have hf : (fetchLocationFromIP initState r).1 = false := by
      rw [fetchLocation_fails_iff]
      right; right; right
      rw [hr]
      decide
    rw [fetchLocation_fail_state initState r hf]
    exact ⟨hf, rfl⟩

/-- A lookup answered with HTTP 200 and the payload status "fail", from the initial
state. -/
theorem fetchLocationFromIP_fallback_witness :
    (fetchLocationFromIP initState ⟨true, 200, false, some "fail", ⟨0⟩, ⟨0⟩⟩).1 = false ∧
    coordinate (fetchLocationFromIP initState ⟨true, 200, false, some "fail", ⟨0⟩, ⟨0⟩⟩).2
      = (⟨0x414F8BAC⟩, ⟨0x429B306F⟩) :=
  fetchLocationFromIP_fallback.2.2 ⟨true, 200, false, some "fail", ⟨0⟩, ⟨0⟩⟩ rfl

/-! ## C3: WiFi retry rate limit -/

/-- C3. `wifiMaintain` retries (stamps `lastWifiAttempt` and re-initiates the
association) exactly when the link is not connected and at least `WIFI_RETRY_MS` =
300000 ms have elapsed since `lastWifiAttempt`; a call made while connected does
nothing.  Hence over any sequence of calls whose clock readings are non-decreasing and
do not wrap, any two calls that retry are at least 300000 ms apart: the later call's
check reading is at least 300000 past the earlier call's stamp. -/
theorem wifiMaintain_rate_limit :
    WIFI_RETRY_MS = 300000 ∧
    (∀ s c, retried (wifiMaintain s c).2 = true ↔
      (c.connected = false ∧ WIFI_RETRY_MS ≤ sub32 c.msCheck s.lastWifiAttempt)) ∧
    (∀ s c, retried (wifiMaintain s c).2 = true →
      (wifiMaintain s c).1.lastWifiAttempt = c.msStamp ∧
      (wifiMaintain s c).2 = [Call.wifiDisconnect, Call.wifiBegin]) ∧
    (∀ s c, c.connected = true → wifiMaintain s c = (s, [])) ∧
    (∀ s cs, (wifiClock cs).Pairwise (· ≤ ·) → (∀ t ∈ wifiClock cs, t < U32) →
      (wifiRetries s cs).Pairwise (fun a b => a.msStamp + 300000 ≤ b.msCheck)) := by
  refine ⟨WIFI_RETRY_MS_eq, ?_, ?_, ?_, ?_⟩
  · intro s c
    rcases wifiMaintain_cases s c with ⟨hr, hc, hge, _⟩ | ⟨hr, hc, _⟩
    · simp [hr, hc, hge]
    · rw [hr]
      rcases hc with hc | hc
      · simp [hc]
      · simp only [Bool.false_eq_true, false_iff, not_and, not_le]
        exact fun _ => hc
  · intro s c h
    rcases wifiMaintain_cases s c with ⟨_, hc, hge, hst⟩ | ⟨hr, _, _⟩
    · refine ⟨by rw [hst], ?_⟩
      unfold wifiMaintain
      simp [hc, Nat.not_lt.mpr hge]
    · rw [hr] at h
      exact absurd h (by decide)
  · intro s c hc
    unfold wifiMaintain
    simp [hc]
  · intro s cs hs hb
    have := wifiRetries_pairwise cs s hs hb
    rwa [WIFI_RETRY_MS_eq] at this

/-- Three calls while disconnected at 300000, 300010 and 600000 ms from the initial
state: the first and third retry, the second does not. -/
theorem wifiMaintain_rate_limit_witness :
    wifiRetries initState [⟨false, 300000, 300000⟩, ⟨false, 300010, 300010⟩,
        ⟨false, 600000, 600000⟩] = [⟨false, 300000, 300000⟩, ⟨false, 600000, 600000⟩] ∧
    (wifiRetries initState [⟨false, 300000, 300000⟩, ⟨false, 300010, 300010⟩,
        ⟨false, 600000, 600000⟩]).Pairwise (fun a b => a.msStamp + 300000 ≤ b.msCheck) :=
  ⟨by decide,
   wifiMaintain_rate_limit.2.2.2.2 initState
    [⟨false, 300000, 300000⟩, ⟨false, 300010, 300010⟩, ⟨false, 600000, 600000⟩]
    (by decide) (by decide)⟩

/-! ## C4: periodic UI redraw -/

/-- C4. In every iteration of `loop` the periodic UI block renders exactly when the
`uint32_t` difference `millis() - lastUiDraw` exceeds `UI_REFRESH_MS` = 30000, and then
stamps `lastUiDraw` with the current `millis()`; otherwise it renders nothing and leaves
`lastUiDraw` alone.  Hence over any run of iterations whose UI clock readings are
non-decreasing and do not wrap, any two periodic renders are more than 30000 ms apart.
When a tick renders and the next tick checks 10 ms after the stamp, the next tick does
not render. -/
theorem loop_ui_periodic :
    UI_REFRESH_MS = 30000 ∧
    (∀ s i, (loop s i).2.ui = [Call.drawUI] ↔ 30000 < sub32 i.msUiCheck s.lastUiDraw) ∧
    (∀ s i, 30000 < sub32 i.msUiCheck s.lastUiDraw → (loop s i).1.lastUiDraw = i.msUiStamp) ∧
    (∀ s i, ¬ 30000 < sub32 i.msUiCheck s.lastUiDraw →
      (loop s i).2.ui = [] ∧ (loop s i).1.lastUiDraw = s.lastUiDraw) ∧
    (∀ s js, (uiClock js).Pairwise (· ≤ ·) → (∀ t ∈ uiClock js, t < U32) →
      (periodicRenders s js).Pairwise (fun a b => a.msUiStamp + 30000 < b.msUiCheck)) ∧
    (∀ s i j, 30000 < sub32 i.msUiCheck s.lastUiDraw → j.msUiCheck = i.msUiStamp + 10 →
      (loop s i).2.ui = [Call.drawUI] ∧ (loop (loop s i).1 j).2.ui = []) := by
  have key : ∀ s i, (loop s i).2.ui = [Call.drawUI] ↔ 30000 < sub32 i.msUiCheck s.lastUiDraw := by
    intro s i
    rcases loop_ui_cases s i with ⟨hd, hu, _⟩ | ⟨hd, hu, _⟩ <;> rw [UI_REFRESH_MS_eq] at hd <;>
      rw [hu] <;> simp [hd]
  refine ⟨UI_REFRESH_MS_eq, key, ?_, ?_, ?_, ?_⟩
  · intro s i h
    rcases loop_ui_cases s i with ⟨_, _, hst⟩ | ⟨hd, _, _⟩
    · exact hst
    · rw [UI_REFRESH_MS_eq] at hd
      exact absurd h hd
  · intro s i h
    rcases loop_ui_cases s i with ⟨hd, _, _⟩ | ⟨_, hu, hst⟩
    · rw [UI_REFRESH_MS_eq] at hd
      exact absurd hd h
    · exact ⟨hu, hst⟩
  · intro s js hs hb
    have := periodicRenders_pairwise js s hs hb
    rwa [UI_REFRESH_MS_eq] at this
  · intro s i j h hj
    refine ⟨(key s i).2 h, ?_⟩
    rcases loop_ui_cases s i with ⟨_, _, hst⟩ | ⟨hd, _, _⟩
    · rcases loop_ui_cases (loop s i).1 j with ⟨hd2, _, _⟩ | ⟨_, hu2, _⟩
      · rw [hst, hj, UI_REFRESH_MS_eq] at hd2
        unfold sub32 U32 at hd2
        omega
      · exact hu2
    · rw [UI_REFRESH_MS_eq] at hd
      exact absurd h hd

/-- Two ticks 10 ms apart, at 30001 and 30011 ms, from the initial state: the first
renders, the second does not. -/
theorem loop_ui_periodic_witness :
    (loop initState (quietTick 30001)).2.ui = [Call.drawUI] ∧
    (loop (loop initState (quietTick 30001)).1 (quietTick 30011)).2.ui = [] :=
  loop_ui_periodic.2.2.2.2.2 initState (quietTick 30001) (quietTick 30011)
    (by decide) (by decide)

/-! ## C10: wraparound-safe timers -/

/-- C10. For every last-fired tick `last` and every true elapsed duration `d` below
2^32, with `now = (last + d) mod 2^32`, the `uint32_t` difference the due checks compute
is `d`.  Hence, inside `loop`, the UI block renders iff `d > 30000`, the weather block
(link up) fetches iff `d > 900000`, and the WiFi block (link down) retries iff
`d >= 300000`, whether or not the counter wrapped between `last` and `now`. -/
theorem timers_wraparound_safe (last d : Nat) (hd : d < U32) :
    sub32 ((last + d) % U32) last = d ∧
    (∀ s i, s.lastUiDraw = last → i.msUiCheck = (last + d) % U32 →
      ((loop s i).2.ui = [Call.drawUI] ↔ 30000 < d)) ∧
    (∀ s i, s.lastWeatherMs = last → i.msWeatherCheck = (last + d) % U32 →
      i.weatherLink = true → (countFetch (loop s i).2.weather = 1 ↔ 900000 < d)) ∧
    (∀ s i, s.lastWifiAttempt = last → i.maintain.msCheck = (last + d) % U32 →
      i.maintain.connected = false →
      (retried (loop s i).2.maintain = true ↔ 300000 ≤ d)) := by
  have hsub := sub32_wrap last d hd
  refine ⟨hsub, ?_, ?_, ?_⟩
  · intro s i hs hi
    rcases loop_ui_cases s i with ⟨h, hu, _⟩ | ⟨h, hu, _⟩ <;>
      rw [hs, hi, hsub, UI_REFRESH_MS_eq] at h <;> rw [hu] <;> simp [h]
  · intro s i hs hi hl
    rcases loop_weather_cases s i with ⟨_, h, hu, _⟩ | ⟨h, hu, _⟩
    · rw [hs, hi, hsub, WEATHER_REFRESH_MS_eq] at h
      rw [hu]
      simp [countFetch, h]
    · rw [hs, hi, hsub, WEATHER_REFRESH_MS_eq] at h
      rw [hu]
      have : ¬ 900000 < d := fun hh => h ⟨hl, hh⟩
      simp [countFetch, this]
  · intro s i hs hi hl
    rw [(loop_maintain s i).1]
    rcases wifiMaintain_cases s i.maintain with ⟨hr, _, h, _⟩ | ⟨hr, h, _⟩
    · rw [hs, hi, hsub, WIFI_RETRY_MS_eq] at h
      rw [hr]
      simp [h]
    · rw [hs, hi, hsub, WIFI_RETRY_MS_eq, hl] at h
      rw [hr]
      rcases h with h | h
      · exact absurd h (by decide)
      · simp only [Bool.false_eq_true, false_iff, not_le]
        exact h

/-- The counter wrapped: `last` = 2^32 - 1000, 31000 ms elapsed, so `now` = 30000; the
computed difference is 31000 and the UI block renders. -/
theorem timers_wraparound_safe_witness :
    sub32 30000 4294966296 = 31000 ∧
    (loop { initState with lastUiDraw := 4294966296 } (quietTick 30000)).2.ui = [Call.drawUI] :=
  ⟨(timers_wraparound_safe 4294966296 31000 (by decide)).1,
   ((timers_wraparound_safe 4294966296 31000 (by decide)).2.1
      { initState with lastUiDraw := 4294966296 } (quietTick 30000) rfl (by decide)).2
      (by decide)⟩

/-! ## C5: periodic weather refresh -/

/-- C5. In every iteration of `loop` the periodic weather block calls `fetchWeather`
exactly when the link reads connected and the `uint32_t` difference
`millis() - lastWeatherMs` exceeds `WEATHER_REFRESH_MS` = 900000, and then stamps
`lastWeatherMs` with the current `millis()` whatever the fetch returned; otherwise it
neither fetches nor changes `lastWeatherMs`.  When such a fetch fails, the snapshot after
the block is the one before it (and, with no touch in that iteration, the one at the end
of the iteration), the stamp has advanced, and the next iteration's periodic block
fetches only if more than 900000 ms have elapsed since that stamp. -/
theorem loop_weather_periodic :
    WEATHER_REFRESH_MS = 900000 ∧
    (∀ s i, countFetch (loop s i).2.weather = 1 ↔
      (i.weatherLink = true ∧ 900000 < sub32 i.msWeatherCheck s.lastWeatherMs)) ∧
    (∀ s i, i.weatherLink = true → 900000 < sub32 i.msWeatherCheck s.lastWeatherMs →
      (loop s i).2.weather = [Call.fetchWeather (fetchWeather s i.weatherReply).1] ∧
      (loop s i).1.lastWeatherMs = i.msWeatherStamp) ∧
    (∀ s i, ¬ (i.weatherLink = true ∧ 900000 < sub32 i.msWeatherCheck s.lastWeatherMs) →
      (loop s i).2.weather = [] ∧ (loop s i).1.lastWeatherMs = s.lastWeatherMs ∧
      weatherStep s i = (s, [])) ∧
    (∀ s i, i.weatherLink = true → 900000 < sub32 i.msWeatherCheck s.lastWeatherMs →
      weatherFails i.weatherReply →
      (weatherStep s i).2 = [Call.fetchWeather false] ∧
      snapshot (weatherStep s i).1 = snapshot s ∧
      (weatherStep s i).1.lastWeatherMs = i.msWeatherStamp ∧
      (i.touched = false → snapshot (loop s i).1 = snapshot s) ∧
      (∀ j, countFetch (loop (loop s i).1 j).2.weather = 1 →
        900000 < sub32 j.msWeatherCheck i.msWeatherStamp)) := by
  have key : ∀ s i, countFetch (loop s i).2.weather = 1 ↔
      (i.weatherLink = true ∧ 900000 < sub32 i.msWeatherCheck s.lastWeatherMs) := by
    intro s i
    rcases loop_weather_cases s i with ⟨hl, hd, hu, _⟩ | ⟨hd, hu, _⟩ <;>
      rw [WEATHER_REFRESH_MS_eq] at hd <;> rw [hu]
    · simp [countFetch, hl, hd]
    · simp only [countFetch]
      constructor
      · intro h; exact absurd h (by decide)
      · intro h; exact absurd h hd
  refine ⟨WEATHER_REFRESH_MS_eq, key, ?_, ?_, ?_⟩
  · intro s i hl hd
    rcases loop_weather_cases s i with ⟨_, _, hu, hst⟩ | ⟨hn, _, _⟩
    · exact ⟨hu, hst⟩
    · rw [WEATHER_REFRESH_MS_eq] at hn
      exact absurd ⟨hl, hd⟩ hn
  · intro s i hn
    rcases loop_weather_cases s i with ⟨hl, hd, _, _⟩ | ⟨_, hu, hst⟩
    · rw [WEATHER_REFRESH_MS_eq] at hd
      exact absurd ⟨hl, hd⟩ hn
    · refine ⟨hu, hst, ?_⟩
      rcases weatherStep_cases s i with ⟨hl, hd, _⟩ | ⟨_, h⟩
      · rw [WEATHER_REFRESH_MS_eq] at hd
        exact absurd ⟨hl, hd⟩ hn
      · exact h
  · intro s i hl hd hfail
    have hflag : (fetchWeather s i.weatherReply).1 = false := (fetchWeather_fails_iff _ _).2 hfail
    have hsame : (fetchWeather s i.weatherReply).2 = s := fetchWeather_fail_state _ _ hflag
    have hstep : weatherStep s i = ({ s with lastWeatherMs := i.msWeatherStamp },
        [Call.fetchWeather false]) := by
      rcases weatherStep_cases s i with ⟨_, _, h⟩ | ⟨hn, _⟩
      · rw [h, hflag, hsame]
      · rw [WEATHER_REFRESH_MS_eq] at hn
        exact absurd ⟨hl, hd⟩ hn
    have hstamp : (loop s i).1.lastWeatherMs = i.msWeatherStamp := by
      rcases loop_weather_cases s i with ⟨_, _, _, hst⟩ | ⟨hn, _, _⟩
      · exact hst
      · rw [WEATHER_REFRESH_MS_eq] at hn
        exact absurd ⟨hl, hd⟩ hn
    refine ⟨by rw [hstep], by rw [hstep]; rfl, by rw [hstep], ?_, ?_⟩
    · intro ht
      show snapshot (touchStep (weatherStep (uiStep (wifiMaintain s i.maintain).1 i).1 i).1 i).1 = _
      have e1 : ∀ t, (touchStep t i).1 = t := by
        intro t
        rcases touchStep_cases t i with ⟨h, _, _⟩ | ⟨h, _, _⟩ | ⟨_, h⟩
        · rw [ht] at h; exact absurd h (by decide)
        · rw [ht] at h; exact absurd h (by decide)
        · rw [h]
      rw [e1]
      generalize hb : (uiStep (wifiMaintain s i.maintain).1 i).1 = b
      have hsb : snapshot b = snapshot s := by
        rw [← hb, (uiStep_frame _ i).2.2.1, (wifiMaintain_frame s i.maintain).2.2.1]
      rcases weatherStep_cases b i with ⟨_, _, h⟩ | ⟨_, h⟩
      · rw [h]
        have hfb : (fetchWeather b i.weatherReply).2 = b :=
          fetchWeather_fail_state _ _ ((fetchWeather_fails_iff _ _).2 hfail)
        rw [hfb]
        exact hsb
      · rw [h]
        exact hsb
    · intro j hj
      have := ((key (loop s i).1 j).1 hj).2
      rwa [hstamp] at this

/-- A periodic fetch answered with HTTP 500, after a first successful fetch: link up,
no touch, 900001 ms after the last stamp.  The fetch is issued and fails, the snapshot
(27.5 degrees, code 63, "Rain") is kept, and the stamp advances to 900001. -/
theorem loop_weather_periodic_witness :
    (weatherStep (fetchWeather initState rainReply).2
        (tick 900001 true false (httpStatusReply 500))).2 = [Call.fetchWeather false] ∧
    snapshot (weatherStep (fetchWeather initState rainReply).2
        (tick 900001 true false (httpStatusReply 500))).1 = (⟨0x41DC0000⟩, 63, "Rain") ∧
    (weatherStep (fetchWeather initState rainReply).2
        (tick 900001 true false (httpStatusReply 500))).1.lastWeatherMs = 900001 :=
  have h := loop_weather_periodic.2.2.2.2 (fetchWeather initState rainReply).2
    (tick 900001 true false (httpStatusReply 500)) rfl (by decide)
    (Or.inr (Or.inl (by decide)))
  ⟨h.1, h.2.1, h.2.2.1⟩

/-! ## C7: touch dispatch -/

/-- C7. In an iteration of `loop` whose touch reading is asserted, whatever the values
of `lastWeatherMs` and `lastUiDraw`, the touch block calls `fetchWeather` exactly once if
the link reads connected and not at all otherwise, and then calls `drawUI` exactly once,
as its last call; in an iteration whose touch reading is not asserted the touch block
calls nothing. -/
theorem loop_touch_dispatch (s : State) (i : LoopInput) :
    (i.touched = true →
      countFetch (loop s i).2.touch = (if i.touchLink then 1 else 0) ∧
      countDraw (loop s i).2.touch = 1 ∧
      (loop s i).2.touch.getLast? = some Call.drawUI) ∧
    (i.touched = false → (loop s i).2.touch = []) := by
  rw [loop_touch]
  rcases touchStep_cases s i with ⟨h1, h2, hst⟩ | ⟨h1, h2, hst⟩ | ⟨h1, hst⟩ <;> rw [hst, h1]
  · rw [h2]
    exact ⟨fun _ => ⟨rfl, rfl, rfl⟩, fun h => absurd h (by decide)⟩
  · rw [h2]
    exact ⟨fun _ => ⟨rfl, rfl, rfl⟩, fun h => absurd h (by decide)⟩
  · exact ⟨fun h => absurd h (by decide), fun _ => rfl⟩

/-- A touch at tick 5 with the link up, neither period elapsed: one fetch, then one
render. -/
theorem loop_touch_dispatch_witness :
    countFetch (loop initState (tick 5 true true rainReply)).2.touch = 1 ∧
    countDraw (loop initState (tick 5 true true rainReply)).2.touch = 1 ∧
    (loop initState (tick 5 true true rainReply)).2.touch.getLast? = some Call.drawUI :=
  (loop_touch_dispatch initState (tick 5 true true rainReply)).1 rfl

/-! ## C6: the touch reading is polled, not latched -/

/-- C6, as stated, fails: a single touch event whose signal is read asserted on two
consecutive iterations (one maximal run of asserted readings) is dispatched on both. -/
theorem touch_held_dispatched_twice :
    touchEvents false
      (List.map LoopInput.touched
        [tick 1000 true true rainReply, tick 1400 true true rainReply]) = 1 ∧
    touchDispatches
      (loopRun initState [tick 1000 true true rainReply, tick 1400 true true rainReply]).2 = 2 := by
  decide

/-- C6, amended. The touch block dispatches in exactly the iterations whose touch reading
is asserted: the sketch keeps no trigger flag, so over any run the number of dispatching
iterations is the number of asserted readings.  Every touch event is therefore dispatched
at least once, and once per iteration for as long as the signal stays asserted. -/
theorem loop_touch_level_triggered :
    (∀ s i, (loop s i).2.touch.contains Call.drawUI = i.touched) ∧
    (∀ s js, touchDispatches (loopRun s js).2 = (js.map LoopInput.touched).count true) ∧
    (∀ s js, touchEvents false (js.map LoopInput.touched) ≤ touchDispatches (loopRun s js).2) := by
  have hcount : ∀ js s, touchDispatches (loopRun s js).2
      = (js.map LoopInput.touched).count true := by
    intro js
    induction js with
    | nil => intro s; rfl
    | cons i js ih =>
      intro s
      have h := ih (loop s i).1
      have hc := loop_touch_contains s i
      unfold touchDispatches at h ⊢
      simp only [loopRun, List.filter_cons, List.map_cons, List.count_cons, hc]
      cases i.touched
      · simpa using h
      · simpa using h
  refine ⟨loop_touch_contains, fun s js => hcount js s, ?_⟩
  intro s js
  rw [hcount js s]
  exact touchEvents_le_count _ false

/-! ## C8: timer state after setup -/

/-- C8, as stated, fails: after a `setup` that completes at tick 40000, `lastUiDraw` and
`lastWifiAttempt` are not 40000, and a first iteration of `loop` at that very tick
issues a periodic render. -/
theorem setup_leaves_timers_unset :
    (setup (slowSetup 40000)).1.lastUiDraw ≠ 40000 ∧
    (setup (slowSetup 40000)).1.lastWifiAttempt ≠ 40000 ∧
    (loop (setup (slowSetup 40000)).1
      (tick 40000 true false (httpStatusReply (-11)))).2.ui = [Call.drawUI] := by
  decide

/-- C8, amended. When `setup` completes, `lastWeatherMs` is the tick read at its end,
while `lastWifiAttempt` and `lastUiDraw` still hold their static initial value 0; `setup`
calls `drawUI` exactly once, as its last call.  On the first iteration of `loop` the
periodic weather block does not fetch while at most 900000 ms have elapsed since that
tick; the periodic UI block renders iff the current `millis()` exceeds 30000; the WiFi
block retries iff the link is down and the current `millis()` is at least 300000. -/
theorem setup_initial_timers (i : SetupInput) :
    (setup i).1.lastWeatherMs = i.msStamp ∧
    (setup i).1.lastWifiAttempt = 0 ∧
    (setup i).1.lastUiDraw = 0 ∧
    countDraw (setup i).2 = 1 ∧
    (setup i).2.getLast? = some Call.drawUI ∧
    (∀ j, (sub32 j.msWeatherCheck i.msStamp ≤ 900000 → (loop (setup i).1 j).2.weather = []) ∧
      ((loop (setup i).1 j).2.ui = [Call.drawUI] ↔ 30000 < j.msUiCheck % U32) ∧
      (retried (loop (setup i).1 j).2.maintain = true ↔
        (j.maintain.connected = false ∧ 300000 ≤ j.maintain.msCheck % U32))) := by
  have hf := setupFetch_frame initState i
  have hw : (setup i).1.lastWeatherMs = i.msStamp := rfl
  have ha : (setup i).1.lastWifiAttempt = 0 := hf.1
  have hu : (setup i).1.lastUiDraw = 0 := hf.2.1
  refine ⟨hw, ha, hu, ?_, ?_, ?_⟩
  · have hs := syncTimeLoop_countDraw i.time 10 0
    unfold countDraw at hs hf ⊢
    unfold setup syncTime connectWiFi
    simp only [List.count_append, List.count_cons, hs, hf.2.2]
    rfl
  · exact List.getLast?_concat _
  · intro j
    refine ⟨?_, ?_, ?_⟩
    · intro h
      rcases loop_weather_cases (setup i).1 j with ⟨_, hd, _, _⟩ | ⟨_, ht, _⟩
      · rw [hw, WEATHER_REFRESH_MS_eq] at hd
        omega
      · exact ht
    · rcases loop_ui_cases (setup i).1 j with ⟨hd, ht, _⟩ | ⟨hd, ht, _⟩ <;>
        rw [hu, sub32_zero, UI_REFRESH_MS_eq] at hd <;> rw [ht] <;> simp [hd]
    · rw [(loop_maintain _ j).1]
      rcases wifiMaintain_cases (setup i).1 j.maintain with ⟨hr, hc, hd, _⟩ | ⟨hr, hd, _⟩
      · rw [ha, sub32_zero, WIFI_RETRY_MS_eq] at hd
        rw [hr]
        simp [hc, hd]
      · rw [ha, sub32_zero, WIFI_RETRY_MS_eq] at hd
        rw [hr]
        rcases hd with hd | hd
        · simp [hd]
        · simp only [Bool.false_eq_true, false_iff, not_and, not_le]
          exact fun _ => hd

/-- A `setup` completing at tick 6000 and a first iteration read at that same tick with
the link up: the weather stamp is 6000 and the periodic weather block does not fetch. -/
theorem setup_initial_timers_witness :
    (setup (slowSetup 6000)).1.lastWeatherMs = 6000 ∧
    (loop (setup (slowSetup 6000)).1 (tick 6000 true false rainReply)).2.weather = [] :=
  ⟨(setup_initial_timers (slowSetup 6000)).1,
   ((setup_initial_timers (slowSetup 6000)).2.2.2.2.2 (tick 6000 true false rainReply)).1
     (by decide)⟩

end TableClock
